import Mathlib

set_option maxRecDepth 8000

/-!
Verification development for the llm-quiz-api repository.

Python strings are modelled as `List Char` (a Python `str` is a sequence of
Unicode code points).  Pure functions of the source (`app/solver.py`,
`app/utils.py`, `app/config.py` and the pure fragments of `app/main.py`) are
translated directly; the effectful chain driver `solve_quiz_chain` is modelled
as a state machine over an explicit environment that supplies, per iteration,
the wall-clock reading, the fetch outcome, the generated answer and the
submission outcome (these steps perform I/O and draw randomness in the source,
so they enter the model as oracle parameters; everything the loop itself does
with them is translated from the source).
-/

/-- Python `str` modelled as a list of code points. -/
abbrev Str := List Char

/-- The set of characters matched by Python's `\s` (and split/stripped by
`str.split()` / `str.strip()`) for `str` patterns: ASCII whitespace,
`\x1c`-`\x1f`, and the Unicode whitespace code points. -/
def pySpace (c : Char) : Bool :=
  let n := c.toNat
  decide ((9 ≤ n ∧ n ≤ 13) ∨ n = 32 ∨ (28 ≤ n ∧ n ≤ 31) ∨ n = 133 ∨ n = 160 ∨
    n = 5760 ∨ (8192 ≤ n ∧ n ≤ 8202) ∨ n = 8232 ∨ n = 8233 ∨ n = 8239 ∨
    n = 8287 ∨ n = 12288)

/-- ASCII model of Python `str.lower()` (the texts in the claims are ASCII). -/
def lowerL (l : Str) : Str := l.map Char.toLower

/-- Python `str.strip()` with no argument: drop whitespace from both ends. -/
def pyStrip (l : Str) : Str :=
  ((l.dropWhile pySpace).reverse.dropWhile pySpace).reverse

/-- The double-quote character. -/
def dq : Char := Char.ofNat 34

/-- The apostrophe character. -/
def apos : Char := Char.ofNat 39

/-! ### app/config.py -/

/-- `TOTAL_WORK_TIMEOUT = 150` (seconds), from `app/config.py`. -/
def TOTAL_WORK_TIMEOUT : Nat := 150

/-- `MAX_PAYLOAD_BYTES = 1 * 1024 * 1024`, from `app/config.py`. -/
def MAX_PAYLOAD_BYTES : Nat := 1 * 1024 * 1024

/-- `QUIZ_EMAIL` from `app/config.py` (aliased `YOUR_EMAIL` in `app/main.py`). -/
def YOUR_EMAIL : Str := "22f1000912@ds.study.iitm.ac.in".data

/-- `QUIZ_SECRET` from `app/config.py` (aliased `YOUR_SECRET` in `app/main.py`). -/
def YOUR_SECRET : Str := "MONAHARINIR0802".data

/-! ### app/solver.py: secret extraction (`solve_quiz_page`, lines 13-29)

Each of the five regular expressions is compiled into a deterministic matcher
(each pattern's quantified classes exclude the character that ends them, so
Python's backtracking search is equivalent to the greedy scan implemented
here).  `searchP` reproduces `re.search`: the leftmost position at which the
pattern matches wins. -/

/-- Match a literal: if `pat` is a prefix of `l`, return the rest of `l`. -/
def litP (pat : Str) (l : Str) : Option Str :=
  if pat.isPrefixOf l then some (l.drop pat.length) else none

/-- Python's `pat in s` substring test: `pat` occurs contiguously in `l`. -/
def containsSub (pat : Str) : Str → Bool
  | [] => pat.isPrefixOf []
  | c :: rest => pat.isPrefixOf (c :: rest) || containsSub pat rest

/-- A character of the class `[A-Za-z0-9_\-]`. -/
def wordChar (c : Char) : Bool :=
  decide ((65 ≤ c.toNat ∧ c.toNat ≤ 90) ∨ (97 ≤ c.toNat ∧ c.toNat ≤ 122) ∨
    (48 ≤ c.toNat ∧ c.toNat ≤ 57) ∨ c = '_' ∨ c = '-')

/-- Pattern 1, `"secret"\s*:\s*"([^"]+)"`, matched at the head of `l`;
returns the first capture group. -/
def matchPat1At (l : Str) : Option Str := do
  let r1 ← litP ([dq] ++ "secret".data ++ [dq]) l
  let r2 := r1.dropWhile pySpace
  let r3 ← litP [':'] r2
  let r4 := r3.dropWhile pySpace
  let r5 ← litP [dq] r4
  let g := r5.takeWhile (fun c => c != dq)
  match r5.drop g.length with
  | [] => none
  | _ :: _ => if g.isEmpty then none else some g

/-- Pattern 2, `secret=([A-Za-z0-9_\-]+)`, matched at the head of `l`. -/
def matchPat2At (l : Str) : Option Str := do
  let r ← litP ("secret=".data) l
  let g := r.takeWhile wordChar
  if g.isEmpty then none else some g

/-- Pattern 3, `<span id="secret">([^<]+)</span>`, matched at the head of `l`. -/
def matchPat3At (l : Str) : Option Str := do
  let r ← litP ("<span id=".data ++ [dq] ++ "secret".data ++ [dq] ++ ">".data) l
  let g := r.takeWhile (fun c => c != '<')
  if g.isEmpty then none
  else if ("</span>".data).isPrefixOf (r.drop g.length) then some g else none

/-- Pattern 4, `data-secret="([^"]+)"`, matched at the head of `l`. -/
def matchPat4At (l : Str) : Option Str := do
  let r ← litP ("data-secret=".data ++ [dq]) l
  let g := r.takeWhile (fun c => c != dq)
  match r.drop g.length with
  | [] => none
  | _ :: _ => if g.isEmpty then none else some g

/-- Pattern 5, `SECRET:\s*([A-Za-z0-9_\-]+)`, matched at the head of `l`. -/
def matchPat5At (l : Str) : Option Str := do
  let r ← litP ("SECRET:".data) l
  let g := (r.dropWhile pySpace).takeWhile wordChar
  if g.isEmpty then none else some g

/-- `re.search`: try the matcher at every position, leftmost first. -/
def searchP (m : Str → Option Str) : Str → Option Str
  | [] => m []
  | c :: rest =>
    match m (c :: rest) with
    | some g => some g
    | none => searchP m rest

/-- The `for pat in secret_patterns` loop of `solve_quiz_page`: the first
pattern (in the fixed priority order) that matches anywhere in the document
yields its first capture group (unstripped). -/
def secretCapture (html : Str) : Option Str :=
  match searchP matchPat1At html with
  | some g => some g
  | none =>
    match searchP matchPat2At html with
    | some g => some g
    | none =>
      match searchP matchPat3At html with
      | some g => some g
      | none =>
        match searchP matchPat4At html with
        | some g => some g
        | none => searchP matchPat5At html

/-- Lines 21-29 of `app/solver.py`: the loop strips the first capture group of
the first matching pattern; `if not extracted_secret` then replaces both a
missing match and a falsy (empty) string by the sentinel. -/
def extracted_secret (html : Str) : Str :=
  match secretCapture html with
  | none => "UNKNOWN_SECRET".data
  | some g =>
    let s := pyStrip g
    if s.isEmpty then "UNKNOWN_SECRET".data else s

/-! ### app/solver.py: task detection and answers (`solve_quiz_page`, lines 33-67) -/

/-- A typed Python value as used for quiz answers: a number or a string. -/
inductive JVal where
  | num (n : Int)
  | str (s : Str)
  deriving DecidableEq

/-- Non-overlapping substring count, Python `s.count(pat)` for a non-empty
`pat`: scan left to right, skipping past each match.  The first argument is
fuel; `countSub` supplies `l.length + 1`, which suffices because every step
consumes at least one character. -/
def countSubAux (pat : Str) : Nat → Str → Nat
  | 0, _ => 0
  | _ + 1, [] => 0
  | f + 1, c :: rest =>
    if pat.isPrefixOf (c :: rest) then
      1 + countSubAux pat f (rest.drop (pat.length - 1))
    else countSubAux pat f rest

/-- Python `s.count(pat)` for non-empty `pat`. -/
def countSub (pat : Str) (l : Str) : Nat := countSubAux pat (l.length + 1) l

/-- `len(re.findall(r'\d+', text))`: the number of maximal ASCII digit runs
(fuel-indexed as above). -/
def countDigitRunsAux : Nat → Str → Nat
  | 0, _ => 0
  | _ + 1, [] => 0
  | f + 1, c :: rest =>
    if c.isDigit then 1 + countDigitRunsAux f (rest.dropWhile Char.isDigit)
    else countDigitRunsAux f rest

/-- The number of maximal digit runs in `l`. -/
def countDigitRuns (l : Str) : Nat := countDigitRunsAux (l.length + 1) l

/-- `sum(ord(c) for c in text) % 1000`. -/
def checksumOf (l : Str) : Nat := (l.map Char.toNat).sum % 1000

/-- Task detection of `solve_quiz_page` (lines 35-44): text signatures first,
then URL markers, else `general`. -/
def solver_task_type (url text : Str) : Str :=
  if containsSub ("count the".data) (lowerL text) then "count".data
  else if containsSub ("checksum".data) (lowerL text) then "checksum".data
  else if containsSub ("audio".data) url then "audio".data
  else if containsSub ("scrape".data) url then "scrape".data
  else "general".data

/-- Answer computation of `solve_quiz_page` (lines 49-65), dispatching on the
detected task type. -/
def solver_answer (url text : Str) : JVal :=
  let task := solver_task_type url text
  if task = "scrape".data then JVal.num (countDigitRuns text)
  else if task = "count".data then JVal.num (countSub ("the".data) (lowerL text))
  else if task = "checksum".data then JVal.num (checksumOf text)
  else if task = "audio".data then JVal.num 4
  else JVal.str ("task_executed_successfully".data)

/-- Maximal alphabetic runs of a string: the tokenisation used by the
spec-side definition of "word occurrences" (fuel-indexed). -/
def alphaRunsAux : Nat → Str → List Str
  | 0, _ => []
  | _ + 1, [] => []
  | f + 1, c :: rest =>
    if c.isAlpha then
      (c :: rest.takeWhile Char.isAlpha) :: alphaRunsAux f (rest.dropWhile Char.isAlpha)
    else alphaRunsAux f rest

/-- Modelled from the spec: "count case-insensitive occurrences of the word
\x22the\x22" — the number of whole words equal to `the` in the lower-cased
text (a word being a maximal alphabetic run).  This is the spec-side reading
of C7, to be compared with the source's substring count. -/
def specWordOccThe (l : Str) : Nat :=
  ((alphaRunsAux ((lowerL l).length + 1) (lowerL l)).filter
    (fun w => w == "the".data)).length

/-! ### app/utils.py -/

/-- `mask_secret` (utils.py lines 32-36): copy the dict, and if a `secret` key
is present overwrite its value with `****`.  A Python dict is modelled as an
association list with distinct keys; assignment to an existing key keeps its
position, which the pointwise map reproduces.  The source copies the dict
(`dict(payload)`) before writing, so the input value is untouched — in this
pure model that frame condition is the fact that `mask_secret` is a function
of its argument returning a fresh list. -/
def mask_secret (payload : List (Str × JVal)) : List (Str × JVal) :=
  payload.map (fun kv =>
    if kv.fst = "secret".data then ("secret".data, JVal.str ("****".data)) else kv)

/-- The character class `[^\s'\"<>]` of the URL regexes in utils.py. -/
def utilUrlChar (c : Char) : Bool :=
  !(pySpace c || c = apos || c = dq || c = '<' || c = '>')

/-- Split the scheme `https?://` off the head of `l` (the regex prefers the
`s` branch, as the greedy `s?` does). -/
def schemeSplit (l : Str) : Option (Str × Str) :=
  if ("https://".data).isPrefixOf l then some ("https://".data, l.drop 8)
  else if ("http://".data).isPrefixOf l then some ("http://".data, l.drop 7)
  else none

/-- `https?://[^\s'\"<>]+/submit[^\s'\"<>]*` matched at the head of `l`.
All characters of `/submit` lie in the class, so the greedy `[^\s'\"<>]+`
followed by backtracking is equivalent to: take the maximal run of class
characters and require `/submit` to occur in it at offset at least 1; the
trailing `[^\s'\"<>]*` then extends the match to the end of the run. -/
def matchSubmitUrlAt (l : Str) : Option Str :=
  match schemeSplit l with
  | none => none
  | some (sch, rest) =>
    let run := rest.takeWhile utilUrlChar
    if containsSub ("/submit".data) (run.drop 1) then some (sch ++ run) else none

/-- `https?://[^\s'\"<>]+/(?:api|quiz|answer)[^\s'\"<>]*` matched at the head
of `l` (same reasoning as `matchSubmitUrlAt`). -/
def matchApiUrlAt (l : Str) : Option Str :=
  match schemeSplit l with
  | none => none
  | some (sch, rest) =>
    let run := rest.takeWhile utilUrlChar
    if containsSub ("/api".data) (run.drop 1) ||
        containsSub ("/quiz".data) (run.drop 1) ||
        containsSub ("/answer".data) (run.drop 1) then
      some (sch ++ run)
    else none

/-- `extract_submit_url` from app/utils.py (lines 6-19): first href containing
`submit`, `answer` or `upload`; else the first `/submit` URL literal in
`html + "\n" + text`; else the first `/api`, `/quiz` or `/answer` URL literal;
else `None`. -/
def utils_extract_submit_url (text html : Str) (hrefs : List Str) : Option Str :=
  match hrefs.find? (fun u => !u.isEmpty &&
      (containsSub ("submit".data) u || containsSub ("answer".data) u ||
        containsSub ("upload".data) u)) with
  | some u => some u
  | none =>
    let combined := html ++ [Char.ofNat 10] ++ text
    match searchP matchSubmitUrlAt combined with
    | some m => some m
    | none => searchP matchApiUrlAt combined

/-! ### app/main.py: `parse_question` text pipeline (lines 155-209) -/

/-- `re.sub(r'[^\x00-\x7F]+', ' ', text)`: replace each maximal run of
non-ASCII characters by a single space (fuel-indexed; each step consumes at
least one character). -/
def squashNonAsciiAux : Nat → Str → Str
  | 0, _ => []
  | _ + 1, [] => []
  | f + 1, c :: rest =>
    if c.toNat ≤ 127 then c :: squashNonAsciiAux f rest
    else ' ' :: squashNonAsciiAux f (rest.dropWhile (fun d => !(d.toNat ≤ 127)))

/-- Replace maximal non-ASCII runs by single spaces. -/
def squashNonAscii (l : Str) : Str := squashNonAsciiAux (l.length + 1) l

/-- Python `s.split()`: maximal runs of non-whitespace (fuel-indexed). -/
def wordsAux : Nat → Str → List Str
  | 0, _ => []
  | f + 1, l =>
    match l.dropWhile pySpace with
    | [] => []
    | c :: rest =>
      (c :: rest.takeWhile (fun d => !pySpace d)) ::
        wordsAux f (rest.dropWhile (fun d => !pySpace d))

/-- Python `s.split()`. -/
def pyWords (l : Str) : List Str := wordsAux (l.length + 1) l

/-- `clean_text` of `parse_question`: squash non-ASCII runs to spaces, then
`' '.join(clean_text.split())`. -/
def normText (l : Str) : Str := List.intercalate ([' ']) (pyWords (squashNonAscii l))

/-- A character of the class `[^\s<>"]` of `url_pattern` in app/main.py. -/
def mainUrlChar (c : Char) : Bool := !(pySpace c || c = '<' || c = '>' || c = dq)

/-- `https?://[^\s<>"]+` matched at the head of `l`: the scheme followed by
the maximal (greedy) non-empty run of class characters. -/
def matchUrlAt (l : Str) : Option Str :=
  match schemeSplit l with
  | none => none
  | some (sch, rest) =>
    let run := rest.takeWhile mainUrlChar
    if run.isEmpty then none else some (sch ++ run)

/-- `re.findall(url_pattern, text)`: all non-overlapping matches, scanning
left to right and resuming after each match (fuel-indexed; every step
consumes at least one character, matches being non-empty). -/
def findUrlsAux : Nat → Str → List Str
  | 0, _ => []
  | _ + 1, [] => []
  | f + 1, c :: rest =>
    match matchUrlAt (c :: rest) with
    | some m => m :: findUrlsAux f (rest.drop (m.length - 1))
    | none => findUrlsAux f rest

/-- All URL-literal matches of `url_pattern` in `l`. -/
def findUrls (l : Str) : List Str := findUrlsAux (l.length + 1) l

/-- `'submit' in url.lower()`. -/
def hasSubmitLower (u : Str) : Bool := containsSub ("submit".data) (lowerL u)

/-- The `submit_url` field computed by `parse_question` (lines 169-176): the
first URL literal of the cleaned text whose lower-case form contains
`submit`, else the empty (falsy) string, modelled as `Option`. -/
def parse_submit_url (text : Str) : Option Str :=
  ((findUrls (normText text)).filter hasSubmitLower).head?

/-- `text_lower` of `parse_question`: the cleaned text, lower-cased. -/
def text_lower (text : Str) : Str := lowerL (normText text)

/-- The keyword lists of `parse_question` lines 196-207. -/
def fileWords : List Str := ["download".data, "file".data, ".pdf".data, ".csv".data]

/-- Sum keywords. -/
def sumWords : List Str := ["sum".data, "total".data, "add".data, "calculate".data]

/-- Scraping keywords. -/
def scrapeWords : List Str := ["scrape".data, "extract".data, "parse".data]

/-- Counting keywords. -/
def countWords : List Str := ["count".data, "number of".data]

/-- Audio keywords. -/
def audioWords : List Str := ["audio".data, "sound".data, "listen".data]

/-- `any(word in text_lower for word in ws)`. -/
def containsAny (tl : Str) (ws : List Str) : Bool := ws.any (fun w => containsSub w tl)

/-- The task-type decision of `parse_question` (lines 193-207): an
if/elif chain over the lower-cased cleaned text, defaulting to `general`. -/
def task_type_of (tl : Str) : Str :=
  if containsAny tl fileWords then "file_download".data
  else if containsAny tl sumWords then "sum_calculation".data
  else if containsSub ("api".data) tl then "api_call".data
  else if containsAny tl scrapeWords then "scraping".data
  else if containsAny tl countWords then "counting".data
  else if containsAny tl audioWords then "audio".data
  else "general".data

/-- The task type `parse_question` assigns to a raw instruction text. -/
def parse_task_type (text : Str) : Str := task_type_of (text_lower text)

/-- `extract_submit_url` from app/main.py (lines 324-333): first URL literal
of `text` containing `submit` case-insensitively, else `origin + "/submit"`. -/
def main_extract_submit_url (text origin : Str) : Str :=
  match ((findUrls text).filter hasSubmitLower).head? with
  | some u => u
  | none => origin ++ "/submit".data

/-- `current_url.rsplit('/', 1)[0] if '/' in current_url else current_url`
(app/main.py line 372): the URL with its last path segment removed. -/
def originOf (url : Str) : Str :=
  if url.contains '/' then (((url.reverse).dropWhile (fun c => c != '/')).drop 1).reverse
  else url

/-- The submit URL the chain driver uses (app/main.py lines 372-373):
`question_info.get("submit_url") or extract_submit_url(instructions_text, origin)`
(the empty parse result is falsy; a found URL starts with `http` and is
truthy). -/
def chain_submit_url (text url : Str) : Str :=
  match parse_submit_url text with
  | some u => u
  | none => main_extract_submit_url text (originOf url)

/-! ### app/main.py: submission payload and size guard (lines 382-396)

`json.dumps` with default options emits `{"email": E, "secret": S, "url": U,
"answer": A}` with `ensure_ascii=True`, so the UTF-8 byte length equals the
character length of the all-ASCII output: 44 bytes of fixed syntax (braces,
the four quoted keys, `: ` and `, ` separators) plus the serialized fields. -/

/-- The UTF-8 byte length `json.dumps` spends on one character of a string
value: `\"` and `\\` and the short control escapes cost 2, other control
characters cost 6 (`\uXXXX`), printable ASCII costs 1, other BMP characters
cost 6 and astral characters 12 (a surrogate pair of `\uXXXX`). -/
def jsonCharLen (c : Char) : Nat :=
  if c = dq ∨ c = Char.ofNat 92 then 2
  else if c.toNat = 8 ∨ c.toNat = 9 ∨ c.toNat = 10 ∨ c.toNat = 12 ∨ c.toNat = 13 then 2
  else if c.toNat < 32 then 6
  else if c.toNat < 127 then 1
  else if c.toNat < 65536 then 6
  else 12

/-- Byte length of a JSON string literal: the two quotes plus the escaped
characters. -/
def jsonStrLen (l : Str) : Nat := 2 + (l.map jsonCharLen).sum

/-- Python `str(answer)`: a number prints in decimal, a string is itself. -/
def strOfAnswer : JVal → Str
  | JVal.num n => (toString n).data
  | JVal.str s => s

/-- Byte length `json.dumps` spends on the answer value: a number is emitted
unquoted in decimal, a string as a JSON string literal. -/
def ansJsonLen : JVal → Nat
  | JVal.num n => (toString n).length
  | JVal.str s => jsonStrLen s

/-- The submission payload of `solve_quiz_chain` (lines 382-387). -/
structure Payload where
  email : Str
  secret : Str
  url : Str
  answer : JVal
  deriving DecidableEq

/-- `len(json.dumps(payload).encode('utf-8'))` for the four-key payload. -/
def payloadSize (p : Payload) : Nat :=
  44 + jsonStrLen p.email + jsonStrLen p.secret + jsonStrLen p.url +
    ansJsonLen p.answer

/-- The payload-size guard (lines 392-396): measure once; if over the limit,
replace the answer by the first 1000 characters of its string form and
proceed without re-measuring. -/
def sizeGuard (p : Payload) : Payload :=
  if payloadSize p > MAX_PAYLOAD_BYTES then
    { p with answer := JVal.str ((strOfAnswer p.answer).take 1000) }
  else p

/-! ### app/main.py: the chain driver `solve_quiz_chain` (lines 335-451)

The loop's effectful steps are supplied by a `ChainEnv`, indexed by the
iteration number: the wall-clock elapsed seconds observed by the timeout
check, the result of `get_instructions` (the fetch either returns a document
or raises), the answer produced by the `generate_answer` stage (which draws
randomness in the source), and the outcome of the submission POST.  The loop
itself — attempt counting, the timeout check, the try/except control flow,
payload construction from the credentials captured at session start, the size
guard, the non-200 / malformed-JSON / correct-and-next-url decisions — is
translated from the source. -/

/-- Outcome of `get_instructions`. -/
inductive FetchOutcome where
  | ok (doc : Str)
  | err (msg : Str)
  deriving DecidableEq

/-- The grader response fields the loop consumes: the truthiness of
`result.get("correct")`, `result.get("url")` and `result.get("delay")`. -/
structure GraderResp where
  correct : Bool
  url : Option Str
  delay : Option Nat
  deriving DecidableEq

/-- Body of a 200 submission response: either `resp.json()` raises or it
parses. -/
inductive JsonBody where
  | malformed
  | parsed (r : GraderResp)
  deriving DecidableEq

/-- Outcome of `requests.post(submit_url, ...)`: the call raises, or returns
a status code and a body. -/
inductive SubmitOutcome where
  | raises (msg : Str)
  | returns (status : Nat) (body : JsonBody)
  deriving DecidableEq

/-- Per-iteration effect oracle for one chain session. -/
structure ChainEnv where
  elapsed : Nat → Nat
  fetch : Nat → FetchOutcome
  answerOf : Nat → JVal
  submit : Nat → SubmitOutcome

/-- `if result.get("correct") and result.get("url")`: the url field is truthy
when present and non-empty. -/
def urlTruthy : Option Str → Bool
  | some u => !u.isEmpty
  | none => false

/-- One element of the `results` list of `solve_quiz_chain`. -/
inductive StepRec where
  | failed (url : Str) (msg : Str)
  | graded (url : Str) (answer : JVal) (resp : GraderResp)
  deriving DecidableEq

/-- Observable trace of one chain session: the final `attempts` counter, the
iteration indices at which a fetch was performed, the payloads POSTed, and
the recorded `results`. -/
structure ChainTrace where
  attempts : Nat
  fetched : List Nat
  posts : List Payload
  results : List StepRec
  deriving DecidableEq

/-- The `while current_url and attempts < max_attempts` loop of
`solve_quiz_chain`: `k` is the current value of `attempts`, the second
argument the remaining attempt budget `max_attempts - attempts`, and the
third the current URL.  Field for field this follows lines 348-444 of
app/main.py. -/
def chainLoop (env : ChainEnv) (origEmail origSecret : Str) :
    Nat → Nat → Str → ChainTrace
  | k, 0, _ => ⟨k, [], [], []⟩
  | k, r + 1, url =>
    if url.isEmpty then ⟨k, [], [], []⟩
    else if TOTAL_WORK_TIMEOUT < env.elapsed k then ⟨k, [], [], []⟩
    else
      match env.fetch k with
      | FetchOutcome.err msg => ⟨k + 1, [k], [], [StepRec.failed url msg]⟩
      | FetchOutcome.ok _doc =>
        let ans := env.answerOf k
        let p := sizeGuard ⟨origEmail, origSecret, url, ans⟩
        match env.submit k with
        | SubmitOutcome.raises msg => ⟨k + 1, [k], [p], [StepRec.failed url msg]⟩
        | SubmitOutcome.returns status body =>
          if status ≠ 200 then
            ⟨k + 1, [k], [p], [StepRec.failed url ("http_error".data)]⟩
          else
            match body with
            | JsonBody.malformed =>
              ⟨k + 1, [k], [p], [StepRec.failed url ("json_error".data)]⟩
            | JsonBody.parsed resp =>
              if resp.correct && urlTruthy resp.url then
                let rest := chainLoop env origEmail origSecret (k + 1) r
                  (resp.url.getD [])
                ⟨rest.attempts, k :: rest.fetched, p :: rest.posts,
                  StepRec.graded url ans resp :: rest.results⟩
              else ⟨k + 1, [k], [p], [StepRec.graded url ans resp]⟩

/-- `solve_quiz_chain(url, email, secret, max_attempts)`: credentials are
captured once (`original_email`, `original_secret`) and the loop starts with
`attempts = 0` at the provided URL.  The source default is
`max_attempts = 5`. -/
def solve_quiz_chain (env : ChainEnv) (url email secret : Str)
    (maxAttempts : Nat) : ChainTrace :=
  chainLoop env email secret 0 maxAttempts url

/-! ### app/main.py: the `POST /quiz` endpoint (lines 58-86 and 463-492) -/

/-- The request body of `POST /quiz`. -/
structure QuizReq where
  email : Str
  secret : Str
  url : Str
  deriving DecidableEq

/-- `verify_credentials` (lines 58-86): strip both received values and compare
them exactly with the configured ones. -/
def verify_credentials (email secret : Str) : Bool :=
  (pyStrip email == YOUR_EMAIL) && (pyStrip secret == YOUR_SECRET)

/-- The arguments handed to `background_tasks.add_task(solve_quiz_chain, ...)`. -/
structure BgTask where
  url : Str
  email : Str
  secret : Str
  deriving DecidableEq

/-- The acknowledgement body returned on success (lines 486-492). -/
structure StartedResp where
  initialUrl : Str
  email : Str
  timeoutSeconds : Nat
  deriving DecidableEq

/-- Result of `POST /quiz`: a 403 with expected/received emails, or a started
acknowledgement together with the enqueued background task. -/
inductive QuizOutcome where
  | denied (status : Nat) (expectedEmail : Str) (receivedEmail : Str)
  | started (resp : StartedResp) (task : BgTask)
  deriving DecidableEq

/-- `solve_quiz` (lines 463-492): verify, then either raise the 403 with the
expected and received email in the detail body, or enqueue
`solve_quiz_chain(req.url, req.email, req.secret)` and return the started
acknowledgement. -/
def solve_quiz (req : QuizReq) : QuizOutcome :=
  if verify_credentials req.email req.secret then
    QuizOutcome.started ⟨req.url, req.email, TOTAL_WORK_TIMEOUT⟩
      ⟨req.url, req.email, req.secret⟩
  else QuizOutcome.denied 403 YOUR_EMAIL req.email

/-- Background work enqueued by an outcome: none on the 403 path. -/
def enqueuedTask : QuizOutcome → Option BgTask
  | QuizOutcome.denied _ _ _ => none
  | QuizOutcome.started _ t => some t

/-! ## Claims -/

/-- C9: for every page content the secret returned by the rendering-based
solver is a non-empty string; in particular a pattern match whose first
capture group trims to the empty string (a whitespace-only secret value)
yields the sentinel `UNKNOWN_SECRET`, never the empty string. -/
theorem c9_secret_nonempty :
    (∀ html : Str, extracted_secret html ≠ []) ∧
    extracted_secret ([dq] ++ "secret".data ++ [dq] ++ ": ".data ++ [dq] ++
      "  ".data ++ [dq]) = "UNKNOWN_SECRET".data := by
  constructor
  · intro html
    unfold extracted_secret
    cases h : secretCapture html with
    | none => simp
    | some g =>
      simp only
      split
      · simp
      · next hne =>
        intro hcon
        rw [hcon] at hne
        simp at hne
  · decide

/-- C9 witness: a patternless document still yields a non-empty secret. -/
theorem c9_secret_nonempty_witness :
    extracted_secret ("hello".data) ≠ [] :=
  c9_secret_nonempty.1 ("hello".data)

/-- C10: `mask_secret` returns a dict equal to its input except that a
`secret` key's value becomes `****`; every other key maps to its original
value, and a payload without a `secret` key is returned equal to the input
(the source copies the dict before writing, so the input is not modified —
in this pure model `mask_secret` is a function returning a fresh list). -/
theorem c10_mask_secret (d : List (Str × JVal)) :
    ((∀ kv ∈ d, kv.1 ≠ "secret".data) → mask_secret d = d) ∧
    (∀ k : Str, k ≠ "secret".data → (mask_secret d).lookup k = d.lookup k) ∧
    (d.any (fun kv => kv.1 == "secret".data) = true →
      (mask_secret d).lookup ("secret".data) = some (JVal.str ("****".data))) := by
  refine ⟨?_, ?_, ?_⟩
  · intro h
    induction d with
    | nil => rfl
    | cons kv t ih =>
      have hkv := h kv (by simp)
      simp only [mask_secret, List.map_cons, if_neg hkv]
      have := ih (fun x hx => h x (by simp [hx]))
      simpa [mask_secret] using this
  · intro k hk
    induction d with
    | nil => rfl
    | cons kv t ih =>
      by_cases hh : kv.1 = "secret".data
      · simp only [mask_secret, List.map_cons, if_pos hh]
        rw [List.lookup_cons, List.lookup_cons]
        have hbeq : (k == kv.1) = false := by
          rw [hh]
          simp
          exact hk
        have hbeq2 : (k == "secret".data) = false := by
          simp
          exact hk
        simp only [hbeq, hbeq2]
        simpa [mask_secret] using ih
      · simp only [mask_secret, List.map_cons, if_neg hh]
        rw [List.lookup_cons, List.lookup_cons]
        cases hbe : (k == kv.1) with
        | true => simp only [hbe]
        | false =>
          simp only [hbe]
          simpa [mask_secret] using ih
  · intro h
    induction d with
    | nil => simp at h
    | cons kv t ih =>
      by_cases hh : kv.1 = "secret".data
      · simp only [mask_secret, List.map_cons, if_pos hh]
        rw [List.lookup_cons]
        simp
      · simp only [List.any_cons, Bool.or_eq_true] at h
        have ht : t.any (fun kv => kv.1 == "secret".data) = true := by
          rcases h with h | h
          · exact absurd (by simpa using h) hh
          · exact h
        simp only [mask_secret, List.map_cons, if_neg hh]
        rw [List.lookup_cons]
        have hbe : (("secret".data : Str) == kv.1) = false := by
          simp
          intro hc
          exact hh hc.symm
        simp only [hbe]
        simpa [mask_secret] using ih ht

/-- C10 witness at a concrete dict. -/
theorem c10_mask_secret_witness :
    mask_secret [("email".data, JVal.str ("e".data))] =
      [("email".data, JVal.str ("e".data))] ∧
    (mask_secret [("email".data, JVal.str ("e".data)),
      ("secret".data, JVal.str ("s".data))]).lookup ("secret".data) =
      some (JVal.str ("****".data)) := by
  constructor
  · exact (c10_mask_secret [("email".data, JVal.str ("e".data))]).1 (by decide)
  · exact (c10_mask_secret [("email".data, JVal.str ("e".data)),
      ("secret".data, JVal.str ("s".data))]).2.2 (by decide)

/-- C6: task classification checks keyword groups on the lower-cased cleaned
text in the fixed priority order (file/download words, then sum words, then
`api`, then scrape words, then count words, then audio words, else
`general`); only the first matching rule applies, so a text containing both
a download and a sum keyword classifies as `file_download`. -/
theorem c6_task_type_priority (text : Str) :
    (containsAny (text_lower text) fileWords = true →
      parse_task_type text = "file_download".data) ∧
    (containsAny (text_lower text) fileWords = false →
      containsAny (text_lower text) sumWords = true →
      parse_task_type text = "sum_calculation".data) ∧
    (containsAny (text_lower text) fileWords = false →
      containsAny (text_lower text) sumWords = false →
      containsSub ("api".data) (text_lower text) = true →
      parse_task_type text = "api_call".data) ∧
    (containsAny (text_lower text) fileWords = false →
      containsAny (text_lower text) sumWords = false →
      containsSub ("api".data) (text_lower text) = false →
      containsAny (text_lower text) scrapeWords = true →
      parse_task_type text = "scraping".data) ∧
    (containsAny (text_lower text) fileWords = false →
      containsAny (text_lower text) sumWords = false →
      containsSub ("api".data) (text_lower text) = false →
      containsAny (text_lower text) scrapeWords = false →
      containsAny (text_lower text) countWords = true →
      parse_task_type text = "counting".data) ∧
    (containsAny (text_lower text) fileWords = false →
      containsAny (text_lower text) sumWords = false →
      containsSub ("api".data) (text_lower text) = false →
      containsAny (text_lower text) scrapeWords = false →
      containsAny (text_lower text) countWords = false →
      containsAny (text_lower text) audioWords = true →
      parse_task_type text = "audio".data) ∧
    (containsAny (text_lower text) fileWords = false →
      containsAny (text_lower text) sumWords = false →
      containsSub ("api".data) (text_lower text) = false →
      containsAny (text_lower text) scrapeWords = false →
      containsAny (text_lower text) countWords = false →
      containsAny (text_lower text) audioWords = false →
      parse_task_type text = "general".data) ∧
    (containsAny (text_lower text) fileWords = true →
      containsAny (text_lower text) sumWords = true →
      parse_task_type text = "file_download".data) := by
  refine ⟨?_, ?_, ?_, ?_, ?_, ?_, ?_, ?_⟩ <;>
    · intros
      simp [parse_task_type, task_type_of, *]

/-- C6 witness: concrete texts exercising the first rule, the priority of
download over sum, and the sum rule. -/
theorem c6_task_type_priority_witness :
    parse_task_type ("please download the data and sum it".data) =
      "file_download".data ∧
    parse_task_type ("compute the sum of the values".data) =
      "sum_calculation".data := by
  constructor
  · exact (c6_task_type_priority
      ("please download the data and sum it".data)).2.2.2.2.2.2.2
      (by decide) (by decide)
  · exact (c6_task_type_priority ("compute the sum of the values".data)).2.1
      (by decide) (by decide)

/-- C7 (amended): in the rendering-based solver the answer is a deterministic
function of the rendered text by task type: for `count`-type pages the number
of non-overlapping case-insensitive occurrences of the substring `the`
(which is 3 for "Please count the the the cats"); for `checksum`-type the sum
of the character codes modulo 1000; for `scrape`-type the number of numeric
substrings; for `audio`-type the fixed value 4; otherwise the fixed success
string. -/
theorem c7_solver_answer_by_type (url text : Str) :
    (solver_task_type url text = "count".data →
      solver_answer url text = JVal.num (countSub ("the".data) (lowerL text))) ∧
    (solver_task_type url text = "checksum".data →
      solver_answer url text = JVal.num (checksumOf text)) ∧
    (solver_task_type url text = "scrape".data →
      solver_answer url text = JVal.num (countDigitRuns text)) ∧
    (solver_task_type url text = "audio".data →
      solver_answer url text = JVal.num 4) ∧
    (solver_task_type url text = "general".data →
      solver_answer url text = JVal.str ("task_executed_successfully".data)) ∧
    solver_answer ("u".data) ("Please count the the the cats".data) =
      JVal.num 3 := by
  refine ⟨?_, ?_, ?_, ?_, ?_, by decide⟩ <;>
    · intro h
      simp [solver_answer, h]

/-- C7 witness: the count rule applied at the spec's example page. -/
theorem c7_solver_answer_by_type_witness :
    solver_answer ("u".data) ("Please count the the the cats".data) =
      JVal.num (countSub ("the".data)
        (lowerL ("Please count the the the cats".data))) :=
  (c7_solver_answer_by_type ("u".data)
    ("Please count the the the cats".data)).1 (by decide)

/-- C7 counterexample: the source counts occurrences of the substring `the`
(`text.lower().count("the")`), not of the word `the`: on the count-type page
"Count the theme" the code answers 2 while the word count is 1. -/
theorem c7_counterexample :
    solver_task_type ("u".data) ("Count the theme".data) = "count".data ∧
    solver_answer ("u".data) ("Count the theme".data) = JVal.num 2 ∧
    specWordOccThe ("Count the theme".data) = 1 ∧
    solver_answer ("u".data) ("Count the theme".data) ≠
      JVal.num (specWordOccThe ("Count the theme".data)) := by decide

/-- C8 (amended): `POST /quiz` verifies the supplied email and secret by
exact string match of their whitespace-stripped forms against the configured
expected values; exactly when verification fails it returns HTTP 403 naming
the expected and received email and enqueues no chain work; exactly when it
succeeds it enqueues the chain driver on the supplied credentials and
returns the started acknowledgement with the initial URL, email and
timeout. -/
theorem c8_quiz_endpoint (req : QuizReq) :
    (verify_credentials req.email req.secret = true ↔
      (pyStrip req.email = YOUR_EMAIL ∧ pyStrip req.secret = YOUR_SECRET)) ∧
    (verify_credentials req.email req.secret = false →
      solve_quiz req = QuizOutcome.denied 403 YOUR_EMAIL req.email ∧
      enqueuedTask (solve_quiz req) = none) ∧
    (verify_credentials req.email req.secret = true →
      solve_quiz req =
        QuizOutcome.started ⟨req.url, req.email, TOTAL_WORK_TIMEOUT⟩
          ⟨req.url, req.email, req.secret⟩) := by
  refine ⟨?_, ?_, ?_⟩
  · simp [verify_credentials]
  · intro h
    simp [solve_quiz, h, enqueuedTask]
  · intro h
    simp [solve_quiz, h]

/-- C8 witness: the configured credentials start the chain; a wrong email is
denied with the diagnostic body. -/
theorem c8_quiz_endpoint_witness :
    solve_quiz ⟨YOUR_EMAIL, YOUR_SECRET, "http://q/0".data⟩ =
      QuizOutcome.started ⟨"http://q/0".data, YOUR_EMAIL, TOTAL_WORK_TIMEOUT⟩
        ⟨"http://q/0".data, YOUR_EMAIL, YOUR_SECRET⟩ ∧
    solve_quiz ⟨"who@x".data, YOUR_SECRET, "u".data⟩ =
      QuizOutcome.denied 403 YOUR_EMAIL ("who@x".data) := by
  constructor
  · exact (c8_quiz_endpoint ⟨YOUR_EMAIL, YOUR_SECRET, "http://q/0".data⟩).2.2
      (by decide)
  · exact ((c8_quiz_endpoint ⟨"who@x".data, YOUR_SECRET, "u".data⟩).2.1
      (by decide)).1

/-- C8 counterexample: verification is not an exact match of the supplied
strings — an email with a trailing space differs from the configured value
yet is accepted (the code strips before comparing), and the chain is
started. -/
theorem c8_counterexample :
    verify_credentials (YOUR_EMAIL ++ [' ']) YOUR_SECRET = true ∧
    YOUR_EMAIL ++ [' '] ≠ YOUR_EMAIL ∧
    (enqueuedTask (solve_quiz
      ⟨YOUR_EMAIL ++ [' '], YOUR_SECRET, "http://q/0".data⟩)).isSome = true := by
  decide

/-- The two-occurrence document used by the C4 counterexample: an earlier
JSON-style secret `ABC` followed by `"secret": "XYZ123"`. -/
def c4Html : Str :=
  [dq] ++ "secret".data ++ [dq] ++ ": ".data ++ [dq] ++ "ABC".data ++ [dq] ++
    " ".data ++ [dq] ++ "secret".data ++ [dq] ++ ": ".data ++ [dq] ++
    "XYZ123".data ++ [dq]

/-- C4 counterexample: `c4Html` contains the substring `"secret": "XYZ123"`,
yet extraction returns `ABC` — the leftmost match of the first pattern wins,
so merely containing the substring does not determine the result; and a
matching pattern whose capture trims to the empty string yields the sentinel
rather than the trimmed capture. -/
theorem c4_counterexample :
    containsSub ([dq] ++ "secret".data ++ [dq] ++ ": ".data ++ [dq] ++
      "XYZ123".data ++ [dq]) c4Html = true ∧
    extracted_secret c4Html = "ABC".data ∧
    "ABC".data ≠ "XYZ123".data ∧
    extracted_secret ([dq] ++ "secret".data ++ [dq] ++ ": ".data ++ [dq] ++
      " ".data ++ [dq]) = "UNKNOWN_SECRET".data := by decide

/-- C4 (amended): secret extraction never raises (it is a total function);
when the leftmost match of the highest-priority JSON-style pattern captures
`XYZ123` the result is `XYZ123`; when none of the five patterns matches the
result is the sentinel `UNKNOWN_SECRET`; and in all cases the result is the
first capture group of the first pattern (in priority order) matching
anywhere in the document, trimmed — except that a capture trimming to the
empty string yields the sentinel. -/
theorem c4_secret_extraction (html : Str) :
    (searchP matchPat1At html = some ("XYZ123".data) →
      extracted_secret html = "XYZ123".data) ∧
    (searchP matchPat1At html = none → searchP matchPat2At html = none →
      searchP matchPat3At html = none → searchP matchPat4At html = none →
      searchP matchPat5At html = none →
      extracted_secret html = "UNKNOWN_SECRET".data) ∧
    (∀ g, secretCapture html = some g → pyStrip g ≠ [] →
      extracted_secret html = pyStrip g) ∧
    (∀ g, secretCapture html = some g → pyStrip g = [] →
      extracted_secret html = "UNKNOWN_SECRET".data) := by
  refine ⟨?_, ?_, ?_, ?_⟩
  · intro h
    have hc : secretCapture html = some ("XYZ123".data) := by
      simp [secretCapture, h]
    simp only [extracted_secret, hc]
    decide
  · intro h1 h2 h3 h4 h5
    have hc : secretCapture html = none := by
      simp [secretCapture, h1, h2, h3, h4, h5]
    simp [extracted_secret, hc]
  · intro g hg hs
    simp only [extracted_secret, hg]
    rw [if_neg]
    simp [hs]
  · intro g hg hs
    simp only [extracted_secret, hg]
    rw [if_pos]
    simp [hs]

/-- C4 witness: a well-formed JSON secret is extracted, and a patternless
document falls back to the sentinel. -/
theorem c4_secret_extraction_witness :
    extracted_secret ([dq] ++ "secret".data ++ [dq] ++ ": ".data ++ [dq] ++
      "XYZ123".data ++ [dq]) = "XYZ123".data ∧
    extracted_secret ("no token in here".data) = "UNKNOWN_SECRET".data := by
  constructor
  · exact (c4_secret_extraction ([dq] ++ "secret".data ++ [dq] ++ ": ".data ++
      [dq] ++ "XYZ123".data ++ [dq])).1 (by decide)
  · exact (c4_secret_extraction ("no token in here".data)).2.1
      (by decide) (by decide) (by decide) (by decide) (by decide)

/-- C5 counterexample: for text `go to http://a/resubmit now` (and empty
hrefs) the combined content contains no URL literal with `/submit`, `/api`,
`/quiz` or `/answer`, yet the chain driver's submit-URL computation returns
`http://a/resubmit` — not `origin + "/submit"` — because the code actually
selects any URL whose lower-case form contains `submit` anywhere; the
utils.py extractor returns `None` on this input, not an origin fallback. -/
theorem c5_counterexample :
    containsSub ("/submit".data) ("go to http://a/resubmit now".data) = false ∧
    containsSub ("/api".data) ("go to http://a/resubmit now".data) = false ∧
    containsSub ("/quiz".data) ("go to http://a/resubmit now".data) = false ∧
    containsSub ("/answer".data) ("go to http://a/resubmit now".data) = false ∧
    utils_extract_submit_url ("go to http://a/resubmit now".data) [] [] =
      none ∧
    chain_submit_url ("go to http://a/resubmit now".data)
      ("http://h/p/q".data) = "http://a/resubmit".data ∧
    "http://a/resubmit".data ≠
      originOf ("http://h/p/q".data) ++ "/submit".data := by decide

/-- C5 (amended): in the chain driver, when no URL literal of the cleaned
instruction text and none of the raw text contains `submit`
case-insensitively, the submit URL falls back to `origin + "/submit"`,
where origin is the current URL with its last path segment removed. -/
theorem c5_submit_url_fallback (text url : Str)
    (h1 : ∀ u ∈ findUrls (normText text), hasSubmitLower u = false)
    (h2 : ∀ u ∈ findUrls text, hasSubmitLower u = false) :
    chain_submit_url text url = originOf url ++ "/submit".data := by
  have hf1 : (findUrls (normText text)).filter hasSubmitLower = [] := by
    rw [List.filter_eq_nil_iff]
    intro a ha
    simp [h1 a ha]
  have hf2 : (findUrls text).filter hasSubmitLower = [] := by
    rw [List.filter_eq_nil_iff]
    intro a ha
    simp [h2 a ha]
  simp [chain_submit_url, parse_submit_url, main_extract_submit_url, hf1, hf2]

/-- C5 witness: a text with no URLs falls back to the origin of the current
URL plus `/submit`. -/
theorem c5_submit_url_fallback_witness :
    chain_submit_url ("no links in this text".data) ("http://h/p/q".data) =
      originOf ("http://h/p/q".data) ++ "/submit".data :=
  c5_submit_url_fallback ("no links in this text".data) ("http://h/p/q".data)
    (by decide) (by decide)

/-- Every character costs at most 12 bytes in a JSON string literal. -/
theorem jsonCharLen_le_twelve (c : Char) : jsonCharLen c ≤ 12 := by
  unfold jsonCharLen
  split_ifs <;> omega

/-- A string truncated to 1000 characters serializes to at most 12002 bytes. -/
theorem jsonStrLen_take_le (s : Str) : jsonStrLen (s.take 1000) ≤ 12002 := by
  unfold jsonStrLen
  have hlen : ((s.take 1000).map jsonCharLen).length ≤ 1000 := by
    rw [List.length_map]
    exact List.length_take_le 1000 s
  have hsum : ((s.take 1000).map jsonCharLen).sum ≤
      ((s.take 1000).map jsonCharLen).length * 12 := by
    have h := List.sum_le_card_nsmul ((s.take 1000).map jsonCharLen) 12 ?_
    · simpa [smul_eq_mul] using h
    · intro x hx
      obtain ⟨c, _, rfl⟩ := List.mem_map.mp hx
      exact jsonCharLen_le_twelve c
  omega

/-- C3 (amended): before each submission the payload is serialized and its
byte length measured once; exactly when it exceeds `MAX_PAYLOAD_BYTES` the
answer's string form is truncated to 1000 characters with no second
measurement (otherwise the payload is untouched); and whenever the
serialized email, secret and url fields total at most
`MAX_PAYLOAD_BYTES - 12046` bytes, the guarded payload is at or under the
limit. -/
theorem c3_size_guard (p : Payload) :
    (payloadSize p > MAX_PAYLOAD_BYTES →
      sizeGuard p =
        { p with answer := JVal.str ((strOfAnswer p.answer).take 1000) }) ∧
    (¬ payloadSize p > MAX_PAYLOAD_BYTES → sizeGuard p = p) ∧
    (jsonStrLen p.email + jsonStrLen p.secret + jsonStrLen p.url ≤ 1036530 →
      payloadSize (sizeGuard p) ≤ MAX_PAYLOAD_BYTES) := by
  refine ⟨?_, ?_, ?_⟩
  · intro h
    simp [sizeGuard, h]
  · intro h
    simp [sizeGuard, h]
  · intro hf
    have hmax : MAX_PAYLOAD_BYTES = 1048576 := rfl
    unfold sizeGuard
    split
    · have ht := jsonStrLen_take_le (strOfAnswer p.answer)
      have hexp : payloadSize
          { p with answer := JVal.str ((strOfAnswer p.answer).take 1000) } =
          44 + jsonStrLen p.email + jsonStrLen p.secret + jsonStrLen p.url +
            jsonStrLen ((strOfAnswer p.answer).take 1000) := rfl
      rw [hexp, hmax]
      omega
    · next h =>
      rw [hmax]
      rw [hmax] at h
      omega

/-- C3 witness: a small payload is left untouched by the guard and stays
under the limit. -/
theorem c3_size_guard_witness :
    sizeGuard ⟨"e".data, "s".data, "http://u".data, JVal.str ("a".data)⟩ =
      ⟨"e".data, "s".data, "http://u".data, JVal.str ("a".data)⟩ ∧
    payloadSize (sizeGuard
      ⟨"e".data, "s".data, "http://u".data, JVal.str ("a".data)⟩) ≤
      MAX_PAYLOAD_BYTES := by
  constructor
  · exact (c3_size_guard
      ⟨"e".data, "s".data, "http://u".data, JVal.str ("a".data)⟩).2.1
      (by decide)
  · exact (c3_size_guard
      ⟨"e".data, "s".data, "http://u".data, JVal.str ("a".data)⟩).2.2
      (by decide)

/-- A payload whose url field is a run of `n` characters `a`. -/
def ovPayload (n : Nat) : Payload :=
  ⟨"e".data, "s".data, List.replicate n 'a', JVal.str ("x".data)⟩

/-- The concrete oversized payload of the C3 counterexample: its url alone
serializes past the 1 MiB limit. -/
def oversizedPayload : Payload := ovPayload 1048576

/-- Serialized length of a run of `a` characters: one byte each plus the two
quotes. -/
theorem jsonStrLen_replicate_a (n : Nat) :
    jsonStrLen (List.replicate n 'a') = n + 2 := by
  unfold jsonStrLen
  rw [List.map_replicate]
  have h1 : jsonCharLen 'a' = 1 := by decide
  rw [h1, List.sum_replicate, smul_eq_mul, mul_one]
  omega

/-- Size of `ovPayload n` before the guard. -/
theorem payloadSize_ovPayload (n : Nat) : payloadSize (ovPayload n) = n + 55 := by
  have hexp : payloadSize (ovPayload n) =
      44 + jsonStrLen ("e".data) + jsonStrLen ("s".data) +
        jsonStrLen (List.replicate n 'a') +
        ansJsonLen (JVal.str ("x".data)) := rfl
  have he : jsonStrLen ("e".data) = 3 := by decide
  have hs2 : jsonStrLen ("s".data) = 3 := by decide
  have hx : ansJsonLen (JVal.str ("x".data)) = 3 := by decide
  rw [hexp, he, hs2, hx, jsonStrLen_replicate_a]
  omega

/-- Size of `ovPayload n` after the guard, for `n` past the limit: the guard
truncates the answer (already one character) and the result still measures
`n + 55` bytes. -/
theorem payloadSize_sizeGuard_ovPayload (n : Nat) (hn : 1048576 < n + 55) :
    payloadSize (sizeGuard (ovPayload n)) = n + 55 := by
  have hgt : payloadSize (ovPayload n) > MAX_PAYLOAD_BYTES := by
    rw [payloadSize_ovPayload]
    have hmax : MAX_PAYLOAD_BYTES = 1048576 := rfl
    rw [hmax]
    omega
  have hguard : sizeGuard (ovPayload n) =
      { ovPayload n with
        answer := JVal.str ((strOfAnswer (ovPayload n).answer).take 1000) } := by
    unfold sizeGuard
    rw [if_pos hgt]
  rw [hguard]
  have hexp : payloadSize
      { ovPayload n with
        answer := JVal.str ((strOfAnswer (ovPayload n).answer).take 1000) } =
      44 + jsonStrLen ("e".data) + jsonStrLen ("s".data) +
        jsonStrLen (List.replicate n 'a') +
        ansJsonLen (JVal.str ((strOfAnswer (JVal.str ("x".data))).take 1000)) :=
    rfl
  have he : jsonStrLen ("e".data) = 3 := by decide
  have hs2 : jsonStrLen ("s".data) = 3 := by decide
  have hans : ansJsonLen (JVal.str ((strOfAnswer (JVal.str ("x".data))).take
      1000)) = 3 := by decide
  rw [hexp, he, hs2, hans, jsonStrLen_replicate_a]
  omega

/-- C3 counterexample: truncating the answer to 1000 characters need not
bring the payload under the limit -- with a url of 2^20 characters the
original payload measures over `MAX_PAYLOAD_BYTES`, the guard truncates the
(already short) answer, and the truncated payload still measures over the
limit. -/
theorem c3_counterexample :
    payloadSize oversizedPayload > MAX_PAYLOAD_BYTES ∧
    payloadSize (sizeGuard oversizedPayload) > MAX_PAYLOAD_BYTES := by
  have hmax : MAX_PAYLOAD_BYTES = 1048576 := rfl
  constructor
  · have h := payloadSize_ovPayload 1048576
    rw [show oversizedPayload = ovPayload 1048576 from rfl, h, hmax]
    omega
  · have h := payloadSize_sizeGuard_ovPayload 1048576 (by omega)
    rw [show oversizedPayload = ovPayload 1048576 from rfl, h, hmax]
    omega

/-- The guard never changes the email field. -/
theorem sizeGuard_email (p : Payload) : (sizeGuard p).email = p.email := by
  unfold sizeGuard
  split <;> rfl

/-- The guard never changes the secret field. -/
theorem sizeGuard_secret (p : Payload) : (sizeGuard p).secret = p.secret := by
  unfold sizeGuard
  split <;> rfl

/-- The attempts counter grows by at most the remaining budget. -/
theorem chainLoop_attempts_le (env : ChainEnv) (e s : Str) :
    ∀ r k url, (chainLoop env e s k r url).attempts ≤ k + r := by
  intro r
  induction r with
  | zero =>
    intro k url
    simp [chainLoop]
  | succ r ih =>
    intro k url
    simp only [chainLoop]
    repeat' split
    all_goals simp
    exact Nat.le_trans (ih (k + 1) _) (by omega)

/-- A fetch is performed at iteration `j` only if the elapsed time observed
at iteration `j` was within the budget. -/
theorem chainLoop_fetched_le (env : ChainEnv) (e s : Str) :
    ∀ r k url j, j ∈ (chainLoop env e s k r url).fetched →
      env.elapsed j ≤ TOTAL_WORK_TIMEOUT := by
  intro r
  induction r with
  | zero =>
    intro k url j hj
    simp [chainLoop] at hj
  | succ r ih =>
    intro k url j hj
    simp only [chainLoop] at hj
    repeat' split at hj
    all_goals simp_all
    rcases hj with rfl | hj2
    · omega
    · exact ih (k + 1) _ j hj2

/-- Every payload the loop posts carries the session credentials. -/
theorem chainLoop_posts_creds (env : ChainEnv) (e s : Str) :
    ∀ r k url p, p ∈ (chainLoop env e s k r url).posts →
      p.email = e ∧ p.secret = s := by
  intro r
  induction r with
  | zero =>
    intro k url p hp
    simp [chainLoop] at hp
  | succ r ih =>
    intro k url p hp
    simp only [chainLoop] at hp
    repeat' split at hp
    all_goals simp_all [sizeGuard_email, sizeGuard_secret]
    rcases hp with rfl | hp2
    · simp [sizeGuard_email, sizeGuard_secret]
    · exact ih (k + 1) _ p hp2

/-- Under an always-successful, always-in-budget environment the loop spends
its full attempt budget. -/
theorem chainLoop_attempts_eq (env : ChainEnv) (e s : Str)
    (Ht : ∀ j, env.elapsed j ≤ TOTAL_WORK_TIMEOUT)
    (Hf : ∀ j, ∃ doc, env.fetch j = FetchOutcome.ok doc)
    (Hs : ∀ j, ∃ resp,
      env.submit j = SubmitOutcome.returns 200 (JsonBody.parsed resp) ∧
      resp.correct = true ∧ urlTruthy resp.url = true) :
    ∀ r k url, url.isEmpty = false →
      (chainLoop env e s k r url).attempts = k + r := by
  intro r
  induction r with
  | zero =>
    intro k url h
    simp [chainLoop]
  | succ r ih =>
    intro k url h
    obtain ⟨doc, hd⟩ := Hf k
    obtain ⟨resp, hsub, hc, hu⟩ := Hs k
    have ht2 : ¬ TOTAL_WORK_TIMEOUT < env.elapsed k := Nat.not_lt.mpr (Ht k)
    cases hru : resp.url with
    | none =>
      rw [hru] at hu
      simp [urlTruthy] at hu
    | some u =>
      rw [hru] at hu
      have hue : u.isEmpty = false := by simpa [urlTruthy] using hu
      have hrec := ih (k + 1) u hue
      simp only [chainLoop, h, hd, hsub, hc, hu, ht2, hru]
      simp [hrec]
      omega

/-- C1: `solve_quiz_chain` performs at most `maxAttempts` iterations
(`attemptsUsed <= maxAttempts` throughout, the source default being 5); a
fetch is performed only at iterations whose observed elapsed time is within
`TOTAL_WORK_TIMEOUT`, so no further fetch happens once the timeout check
sees the budget exceeded; and when every grader response is `correct` with a
next URL and the clock stays within budget the loop still stops after
exactly `maxAttempts` iterations. -/
theorem c1_chain_budget (env : ChainEnv) (url email secret : Str)
    (maxAttempts : Nat) :
    (solve_quiz_chain env url email secret maxAttempts).attempts ≤
      maxAttempts ∧
    (∀ j ∈ (solve_quiz_chain env url email secret maxAttempts).fetched,
      env.elapsed j ≤ TOTAL_WORK_TIMEOUT) ∧
    (url.isEmpty = false →
      (∀ j, env.elapsed j ≤ TOTAL_WORK_TIMEOUT) →
      (∀ j, ∃ doc, env.fetch j = FetchOutcome.ok doc) →
      (∀ j, ∃ resp,
        env.submit j = SubmitOutcome.returns 200 (JsonBody.parsed resp) ∧
        resp.correct = true ∧ urlTruthy resp.url = true) →
      (solve_quiz_chain env url email secret maxAttempts).attempts =
        maxAttempts) := by
  refine ⟨?_, ?_, ?_⟩
  · simpa using chainLoop_attempts_le env email secret maxAttempts 0 url
  · intro j hj
    exact chainLoop_fetched_le env email secret maxAttempts 0 url j hj
  · intro h Ht Hf Hs
    simpa using chainLoop_attempts_eq env email secret Ht Hf Hs maxAttempts 0
      url h

/-- An environment whose grader always answers correct with a next URL. -/
def goodEnv : ChainEnv :=
  ⟨fun _ => 0, fun _ => FetchOutcome.ok [], fun _ => JVal.num 1,
    fun _ => SubmitOutcome.returns 200
      (JsonBody.parsed ⟨true, some ("u".data), none⟩)⟩

/-- C1 witness: with the default budget of 5 and an always-correct grader the
chain stops after exactly 5 attempts, within the budget. -/
theorem c1_chain_budget_witness :
    (solve_quiz_chain goodEnv ("http://q/0".data) ("e".data) ("s".data)
      5).attempts = 5 ∧
    (solve_quiz_chain goodEnv ("http://q/0".data) ("e".data) ("s".data)
      5).attempts ≤ 5 := by
  constructor
  · exact (c1_chain_budget goodEnv ("http://q/0".data) ("e".data) ("s".data)
      5).2.2 (by decide) (fun j => by simp [goodEnv, TOTAL_WORK_TIMEOUT])
      (fun j => ⟨[], rfl⟩)
      (fun j => ⟨⟨true, some ("u".data), none⟩, rfl, rfl, by decide⟩)
  · exact (c1_chain_budget goodEnv ("http://q/0".data) ("e".data) ("s".data)
      5).1

/-- C2: every submission payload POSTed during a chain carries exactly the
email and secret supplied at session start, unmodified, at every iteration
and independently of page content or grader responses. -/
theorem c2_chain_credentials (env : ChainEnv) (url email secret : Str)
    (maxAttempts : Nat) :
    ∀ p ∈ (solve_quiz_chain env url email secret maxAttempts).posts,
      p.email = email ∧ p.secret = secret := by
  intro p hp
  exact chainLoop_posts_creds env email secret maxAttempts 0 url p hp

/-- An environment whose grader answers incorrect, ending the chain after
one submission. -/
def stopEnv : ChainEnv :=
  ⟨fun _ => 0, fun _ => FetchOutcome.ok [], fun _ => JVal.num 1,
    fun _ => SubmitOutcome.returns 200 (JsonBody.parsed ⟨false, none, none⟩)⟩

/-- C2 witness: the one payload posted by a concrete one-step chain carries
the supplied credentials. -/
theorem c2_chain_credentials_witness :
    (sizeGuard ⟨"e".data, "s".data, "http://q/0".data, JVal.num 1⟩).email =
      "e".data ∧
    (sizeGuard ⟨"e".data, "s".data, "http://q/0".data, JVal.num 1⟩).secret =
      "s".data :=
  c2_chain_credentials stopEnv ("http://q/0".data) ("e".data) ("s".data) 5
    (sizeGuard ⟨"e".data, "s".data, "http://q/0".data, JVal.num 1⟩)
    (by decide)
